import Mathlib

/-!
Verification development for the pdfgen-js resilient PDF rendering core.

The definitions below are a shallow embedding of the relevant parts of the
source:
* `src/workers/pdf-worker-ultra.js` — the worker entry point `generatePdf`,
  the pre-render validation `validateDocDefinition`, and the event/timer
  state machine of `generatePdfBuffer`;
* `src/services/cache-service.js` — the coordinator
  `PdfRenderServiceResilient`: `calculateRetryDelay`, `executeTask`,
  `renderToBuffer`, `updateStats`, `recoverInFlightTasks`, the periodic
  `checkWorkers` closure of `setupWorkerMonitoring`, and
  `detectAndHandleHungTasks`.

Buffers are modelled as lists of bytes, JavaScript `Map`s as association
lists keyed by task id, `Set`s as duplicate-free lists, and time stamps as
natural numbers of milliseconds.  Retry delays are rational numbers because
the backoff multiplier defaults to 1.5.
-/

namespace PdfGen

/-- A byte buffer (Node `Buffer` contents). -/
abbrev Buf := List Nat

/-! ### Worker: `pdf-worker-ultra.js` -/

/-- Abstraction of a pdfmake document definition as far as the worker's
validation logic inspects it: whether the value is a non-null object,
whether `docDef.content` is present (truthy), and the length of
`JSON.stringify(docDef)`. -/
structure DocDefinition where
  isNonNullObject : Bool
  hasContent : Bool
  serializedLength : Nat
deriving Repr, DecidableEq

/-- `JSON.stringify(docDef).length` ceiling in `validateDocDefinition`:
`5 * 1024 * 1024`. -/
def docDefSizeLimit : Nat := 5 * 1024 * 1024

/-- Embedding of `validateDocDefinition` (pdf-worker-ultra.js lines
165-178): throws on a non-object, on missing `content`, and on a
serialized payload longer than 5 MiB, in that order. -/
def validateDocDefinition (d : DocDefinition) : Except String Unit :=
  if !d.isNonNullObject then .error "Invalid document definition"
  else if !d.hasContent then .error "Missing content"
  else if d.serializedLength > docDefSizeLimit then
    .error "Document definition too large"
  else .ok ()

/-- Embedding of the worker entry point `generatePdf` (pdf-worker-ultra.js
lines 40-84), restricted to the control flow that decides success and
failure: resolve/validate the document, then (only if validation passed)
run the actual render `generatePdfBuffer`, and wrap every thrown error as
`PDF Worker Error: <message>`.  The second component of the result records
whether the render step was reached at all, instrumenting the claim that
invalid payloads are rejected before any rendering work. -/
def generatePdf (render : DocDefinition → Except String Buf)
    (d : DocDefinition) : Except String Buf × Bool :=
  match validateDocDefinition d with
  | .error e => (.error ("PDF Worker Error: " ++ e), false)
  | .ok _ =>
    match render d with
    | .ok buf => (.ok buf, true)
    | .error e => (.error ("PDF Worker Error: " ++ e), true)

/-! ### Worker: the `generatePdfBuffer` promise state machine

`generatePdfBuffer` (pdf-worker-ultra.js lines 86-163) creates a promise
whose executor installs a timer and three stream handlers on the pdfkit
document.  Its mutable state is `isCompleted`, `totalSize` and `chunks`;
the promise itself settles at most once (`settled`).  `destroyed` records
whether `pdfDoc.destroy()` has been called, and `uncaught` records an
exception thrown out of a timer callback (which in Node is an uncaught
exception, not a promise rejection). -/

structure GenState where
  isCompleted : Bool
  totalSize : Nat
  chunks : List Buf
  settled : Option (Except String Buf)
  destroyed : Bool
  uncaught : Option String
deriving Repr

/-- Output-size ceiling `PDF_SIZE_LIMIT` (10 MiB). -/
def pdfSizeLimit : Nat := 10 * 1024 * 1024

/-- The statements of the timeout callback body installed by
`setTimeout` in `generatePdfBuffer` (lines 92-99), inside the
`if (!isCompleted)` guard, in source order. -/
inductive TStmt where
  | setCompleted
  | callDestroyOn (name : String)
  | clearChunks
  | rejectTimeout
deriving Repr, DecidableEq

/-- Body of the timeout callback: `isCompleted = true; pdfDoc.destroy();
chunks.length = 0; reject(new Error("Timeout after ..."))`. -/
def timeoutCallbackBody : List TStmt :=
  [.setCompleted, .callDestroyOn "pdfDoc", .clearChunks, .rejectTimeout]

/-- The identifiers bound in the scope chain of the timeout callback.  The
callback is created in the promise-executor scope of `generatePdfBuffer`,
which binds `isCompleted`, `totalSize`, `chunks` and `timeout` (plus the
enclosing function's `docDefinition`, `options`, `resolve`, `reject` and
the module-level `printer`).  Crucially, `pdfDoc` is NOT here: it is
declared with `const` inside the `try { ... }` block at line 102, a block
that does not enclose the callback, so the name `pdfDoc` does not resolve
in the callback's scope chain. -/
def timeoutCallbackScope : List String :=
  ["isCompleted", "totalSize", "chunks", "timeout",
   "docDefinition", "options", "resolve", "reject", "printer"]

/-- Run the statements of the timeout callback under JavaScript scoping: a
method call on a name that is not bound in the scope chain throws a
`ReferenceError`, which aborts the rest of the callback body and becomes an
uncaught exception of the timer tick. -/
def runTimeoutStmts (scope : List String) : List TStmt → GenState → GenState
  | [], s => s
  | stmt :: rest, s =>
    match stmt with
    | .setCompleted => runTimeoutStmts scope rest { s with isCompleted := true }
    | .callDestroyOn n =>
      if n ∈ scope then
        runTimeoutStmts scope rest { s with destroyed := true }
      else
        { s with uncaught := some ("ReferenceError: " ++ n ++ " is not defined") }
    | .clearChunks => runTimeoutStmts scope rest { s with chunks := [] }
    | .rejectTimeout =>
      runTimeoutStmts scope rest
        { s with settled := some (.error "Timeout after GENERATION_TIMEOUT ms") }

/-- The timeout callback of `generatePdfBuffer` (lines 92-99): guarded by
`if (!isCompleted)`, then the body statements run under the callback's
actual scope chain. -/
def onTimeout (s : GenState) : GenState :=
  if s.isCompleted then s
  else runTimeoutStmts timeoutCallbackScope timeoutCallbackBody s

/-- The `data` handler (lines 108-127): ignore if completed; accumulate
size; on exceeding `PDF_SIZE_LIMIT` destroy the document, drop the chunks
and reject; otherwise push the chunk. -/
def onData (chunk : Buf) (s : GenState) : GenState :=
  if s.isCompleted then s
  else
    let total := s.totalSize + chunk.length
    if total > pdfSizeLimit then
      { s with isCompleted := true, totalSize := total, chunks := [],
               destroyed := true,
               settled := some (.error "PDF size exceeded") }
    else
      { s with totalSize := total, chunks := s.chunks ++ [chunk] }

/-- The `end` handler (lines 129-144): ignore if completed; otherwise
concatenate the chunks, clear them and resolve. -/
def onEnd (s : GenState) : GenState :=
  if s.isCompleted then s
  else
    { s with isCompleted := true,
             settled := some (.ok s.chunks.flatten), chunks := [] }

/-- The `error` handler (lines 146-154): ignore if completed; otherwise
clear the chunks and reject. -/
def onError (msg : String) (s : GenState) : GenState :=
  if s.isCompleted then s
  else
    { s with isCompleted := true, chunks := [],
             settled := some (.error ("PDFKit error: " ++ msg)) }

/-- Initial state of the `generatePdfBuffer` executor. -/
def initialGenState : GenState :=
  { isCompleted := false, totalSize := 0, chunks := [], settled := none,
    destroyed := false, uncaught := none }

/-! ### Coordinator: `PdfRenderServiceResilient` (cache-service.js)

The coordinator's configuration, task records, statistics and per-service
mutable state, translated from the constructor (lines 360-483). -/

/-- The options of `PdfRenderServiceResilient` that the embedded operations
read.  `retryDelay` and `retryBackoff` are rational because the backoff
multiplier defaults to 1.5. -/
structure ServiceOptions where
  minThreads : Nat
  maxThreads : Nat
  maxQueue : Nat
  maxRetries : Nat
  retryDelay : ℚ
  retryBackoff : ℚ
  taskTimeout : Nat
  recoveryCheckInterval : Nat
  hangDetectionInterval : Nat
  hangThreshold : Nat
deriving Repr, DecidableEq

/-- Default option values from the constructor (numeric defaults that do
not depend on `os.cpus()`; for the thread counts we use the values on a
4-core host: `max(2, ceil(4*0.5)) = 2` and `max(4, ceil(4*0.75)) = 4`). -/
def defaultOptions : ServiceOptions :=
  { minThreads := 2, maxThreads := 4, maxQueue := 500, maxRetries := 3,
    retryDelay := 1000, retryBackoff := 3 / 2, taskTimeout := 30000,
    recoveryCheckInterval := 5000, hangDetectionInterval := 10000,
    hangThreshold := 45000 }

/-- One entry of `taskInfo.errors` (pushed at lines 666-671). -/
structure ErrEntry where
  attempt : Nat
  timestamp : Nat
  message : String
  wasStuck : Bool
deriving Repr, DecidableEq

/-- The `taskInfo` record created by `renderToBuffer` (lines 568-577). -/
structure TaskInfo where
  id : Nat
  attempts : Nat
  maxRetries : Nat
  createdAt : Nat
  lastAttemptAt : Option Nat
  errors : List ErrEntry
deriving Repr, DecidableEq

/-- An entry of `taskExecutionTimes` (line 625): the dispatch start time
and the task record, keyed by task id. -/
structure ExecRecord where
  startTime : Nat
  taskInfo : TaskInfo
deriving Repr, DecidableEq

/-- The service stats object (lines 443-455).  `minTime` starts at
`Infinity`, modelled as `none`; `hungTasks` starts undefined and is
materialised as 0 by `(this.stats.hungTasks || 0)`. -/
structure ServiceStats where
  renders : Nat
  errors : Nat
  retries : Nat
  recovered : Nat
  workerCrashes : Nat
  hungTasks : Nat
  totalTime : Nat
  minTime : Option Nat
  maxTime : Nat
  timings : List Nat
deriving Repr, DecidableEq

/-- Stats at construction time. -/
def initialStats : ServiceStats :=
  { renders := 0, errors := 0, retries := 0, recovered := 0,
    workerCrashes := 0, hungTasks := 0, totalTime := 0, minTime := none,
    maxTime := 0, timings := [] }

/-- The coordinator-side mutable state: `stats`, the `activeTasks` map
(values only — it is keyed by `taskInfo.id`), the `retryQueue` array, the
`taskExecutionTimes` map as an association list, the `stuckTasks` set as a
duplicate-free list, the live thread count of the pool, and
`lastWorkerCrash`. -/
structure ServiceState where
  stats : ServiceStats
  activeTasks : List TaskInfo
  retryQueue : List TaskInfo
  taskExecutionTimes : List (Nat × ExecRecord)
  stuckTasks : List Nat
  threads : Nat
  lastWorkerCrash : Option (Nat × Nat)
deriving Repr, DecidableEq

/-- Service state at construction time (`threads` is the warmed pool's
live worker count). -/
def initialState (threads : Nat) : ServiceState :=
  { stats := initialStats, activeTasks := [], retryQueue := [],
    taskExecutionTimes := [], stuckTasks := [], threads := threads,
    lastWorkerCrash := none }

/-- `Map.set` on the `taskExecutionTimes` association list: replace the
value of an existing key in place, else append. -/
def setKey (k : Nat) (v : ExecRecord) :
    List (Nat × ExecRecord) → List (Nat × ExecRecord)
  | [] => [(k, v)]
  | (k', v') :: rest =>
    if k' = k then (k, v) :: rest else (k', v') :: setKey k v rest

/-- `Map.delete`: remove the entries with the given key. -/
def eraseKey (k : Nat) (m : List (Nat × ExecRecord)) :
    List (Nat × ExecRecord) :=
  m.filter (fun e => e.1 ≠ k)

/-- `Set.delete` on the `stuckTasks` set. -/
def setErase (x : Nat) (s : List Nat) : List Nat :=
  s.filter (fun y => y ≠ x)

/-- Embedding of `calculateRetryDelay` (lines 555-559):
`retryDelay * Math.pow(retryBackoff, attempt - 1)`.  JavaScript arithmetic
on numbers allows a negative exponent, so the exponent is an integer. -/
def calculateRetryDelay (opts : ServiceOptions) (attempt : Nat) : ℚ :=
  opts.retryDelay * opts.retryBackoff ^ ((attempt : ℤ) - 1)

/-- Observable events emitted by the service (`this.emit(...)`). -/
inductive Event where
  | taskRetry (taskId attempt : Nat) (delay : ℚ)
  | taskRecovered (taskId attempts : Nat)
  | taskFailed (taskId attempts : Nat)
  | taskHung (taskId executionTime attempts threshold : Nat)
  | workerCrash (workerCount : Nat)
  | recoveryTriggered (taskCount : Nat)
deriving Repr, DecidableEq

/-- Result of one `executeTask` call: the settled value of its promise,
the service state and task record after it, and the events it emitted. -/
structure ExecResult where
  result : Except String Buf
  state : ServiceState
  task : TaskInfo
  trace : List Event
deriving Repr

/-- Embedding of the retry loop of `executeTask` (cache-service.js lines
614-714).  `run k` is the outcome of `this.piscina.run(...)` for dispatch
attempt `k` (the worker-pool call is the boundary to the external Piscina
dependency).  `fuel` counts the remaining loop iterations; the wrapper
`executeTask` instantiates it with `maxRetries - attempts`, which is exact:
the `while (attempts < maxRetries)` guard admits precisely that many
iterations, so the fuel-0 base case coincides with the guard turning false
and the `throw new Error("Max retries exhausted")` after the loop.

Loop body, in source order: increment `attempts`, stamp `lastAttemptAt`,
insert the execution record; on success delete the record, clear the stuck
flag and (when `attempts > 1`) count the task as recovered and emit
`task-recovered`; on error delete the record, push an error entry (reading
the stuck flag first), clear the stuck flag, and either — when
`attempts < maxRetries` — count a retry, emit `task-retry` with the
backoff delay and loop again, or throw the terminal wrapped error. -/
def executeTaskAux (opts : ServiceOptions) (run : Nat → Except String Buf)
    (now : Nat) : Nat → ServiceState → TaskInfo → ExecResult
  | 0, st, t =>
    { result := .error "Max retries exhausted", state := st, task := t,
      trace := [] }
  | fuel + 1, st, t =>
    if t.attempts < t.maxRetries then
      let t1 : TaskInfo :=
        { t with attempts := t.attempts + 1, lastAttemptAt := some now }
      let st1 :=
        { st with taskExecutionTimes :=
            setKey t.id ⟨now, t1⟩ st.taskExecutionTimes }
      match run t1.attempts with
      | .ok buf =>
        let st2 :=
          { st1 with
            taskExecutionTimes := eraseKey t.id st1.taskExecutionTimes,
            stuckTasks := setErase t.id st1.stuckTasks }
        if t1.attempts > 1 then
          { result := .ok buf,
            state := { st2 with stats :=
              { st2.stats with recovered := st2.stats.recovered + 1 } },
            task := t1,
            trace := [.taskRecovered t.id t1.attempts] }
        else
          { result := .ok buf, state := st2, task := t1, trace := [] }
      | .error msg =>
        let st2 :=
          { st1 with
            taskExecutionTimes := eraseKey t.id st1.taskExecutionTimes }
        let t2 : TaskInfo :=
          { t1 with errors := t1.errors ++
              [⟨t1.attempts, now, msg, st2.stuckTasks.contains t.id⟩] }
        let st3 := { st2 with stuckTasks := setErase t.id st2.stuckTasks }
        if t2.attempts < t2.maxRetries then
          let delay := calculateRetryDelay opts t2.attempts
          let st4 := { st3 with stats :=
            { st3.stats with retries := st3.stats.retries + 1 } }
          let r := executeTaskAux opts run now fuel st4 t2
          { r with trace := Event.taskRetry t.id t2.attempts delay :: r.trace }
        else
          { result := .error ("Task failed after " ++
              toString t2.maxRetries ++ " attempts: " ++ msg),
            state := st3, task := t2, trace := [] }
    else
      { result := .error "Max retries exhausted", state := st, task := t,
        trace := [] }

/-- `executeTask` proper: run the loop with its exact iteration budget. -/
def executeTask (opts : ServiceOptions) (run : Nat → Except String Buf)
    (now : Nat) (st : ServiceState) (t : TaskInfo) : ExecResult :=
  executeTaskAux opts run now (t.maxRetries - t.attempts) st t

/-- Ring-buffer capacity `maxTimings` of the latency samples. -/
def maxTimings : Nat := 1000

/-- Embedding of `updateStats(duration, attempts)` (lines 908-920): count
a render, accumulate total time, track min/max, and push the duration into
the bounded ring of timings.  The `attempts` parameter is unused in the
source body as well. -/
def updateStats (st : ServiceState) (duration : Nat) (_attempts : Nat) :
    ServiceState :=
  let s := st.stats
  let minT : Option Nat :=
    match s.minTime with
    | none => some duration
    | some m => if duration < m then some duration else some m
  let maxT := if duration > s.maxTime then duration else s.maxTime
  let base := if s.timings.length ≥ maxTimings then s.timings.drop 1
              else s.timings
  { st with stats :=
    { s with renders := s.renders + 1, totalTime := s.totalTime + duration,
             minTime := minT, maxTime := maxT,
             timings := base ++ [duration] } }

/-- Embedding of `renderToBuffer` (lines 564-609): create the task record
with `attempts = 0` and the configured `maxRetries`, insert it into
`activeTasks`, run `executeTask`; on success update the stats (which
increments `renders`) and delete the task from `activeTasks`; on the final
failure delete the task, count an error and emit `task-failed`.  `taskId`
stands for the fresh id of `generateTaskId`, and `duration` for the
wall-clock `performance.now()` span of the call. -/
def renderToBuffer (opts : ServiceOptions) (run : Nat → Except String Buf)
    (now : Nat) (taskId : Nat) (duration : Nat) (st : ServiceState) :
    Except String Buf × ServiceState × List Event :=
  let t0 : TaskInfo :=
    { id := taskId, attempts := 0, maxRetries := opts.maxRetries,
      createdAt := now, lastAttemptAt := none, errors := [] }
  let st1 := { st with activeTasks := st.activeTasks ++ [t0] }
  let r := executeTask opts run now st1 t0
  match r.result with
  | .ok buf =>
    let st2 := updateStats r.state duration r.task.attempts
    let st3 := { st2 with activeTasks :=
      st2.activeTasks.filter (fun x => x.id ≠ taskId) }
    (.ok buf, st3, r.trace)
  | .error e =>
    let st2 :=
      { r.state with
        activeTasks := r.state.activeTasks.filter (fun x => x.id ≠ taskId),
        stats := { r.state.stats with errors := r.state.stats.errors + 1 } }
    (.error e, st2, r.trace ++ [.taskFailed taskId r.task.attempts])

/-- Embedding of `recoverInFlightTasks` (lines 743-764): push every active
task with remaining retry budget onto the retry queue, and emit
`recovery-triggered` when any were found. -/
def recoverInFlightTasks (st : ServiceState) : ServiceState × List Event :=
  let inFlight := st.activeTasks.filter
    (fun t => t.attempts < t.maxRetries)
  let st1 := { st with retryQueue := st.retryQueue ++ inFlight }
  if inFlight.length > 0 then
    (st1, [.recoveryTriggered inFlight.length])
  else (st1, [])

/-- Embedding of the `checkWorkers` closure of `setupWorkerMonitoring`
(lines 488-519), run every `recoveryCheckInterval`: if the live worker
count is strictly below `minThreads`, record the crash, increment
`workerCrashes`, emit `worker-crash`, and synchronously run
`recoverInFlightTasks`. -/
def checkWorkers (opts : ServiceOptions) (currentWorkers now : Nat)
    (st : ServiceState) : ServiceState × List Event :=
  if currentWorkers < opts.minThreads then
    let st1 :=
      { st with
        lastWorkerCrash := some (now, currentWorkers),
        stats := { st.stats with
          workerCrashes := st.stats.workerCrashes + 1 } }
    let r := recoverInFlightTasks st1
    (r.1, Event.workerCrash currentWorkers :: r.2)
  else (st, [])

/-- The loop body of `detectAndHandleHungTasks` (lines 791-843), iterating
the entries of `taskExecutionTimes`: a task whose execution time strictly
exceeds `hangThreshold` and which is not yet in `stuckTasks` is added to
the set, counted in `stats.hungTasks`, and reported with a `task-hung`
event; every other entry is left alone. -/
def detectLoop (opts : ServiceOptions) (now : Nat) :
    List (Nat × ExecRecord) → ServiceState → ServiceState × List Event
  | [], st => (st, [])
  | (taskId, exec) :: rest, st =>
    let executionTime := now - exec.startTime
    if executionTime > opts.hangThreshold then
      if taskId ∈ st.stuckTasks then detectLoop opts now rest st
      else
        let st1 :=
          { st with
            stuckTasks := st.stuckTasks ++ [taskId],
            stats := { st.stats with
              hungTasks := st.stats.hungTasks + 1 } }
        let r := detectLoop opts now rest st1
        (r.1, Event.taskHung taskId executionTime exec.taskInfo.attempts
                opts.hangThreshold :: r.2)
    else detectLoop opts now rest st

/-- One sweep of the hang detector `detectAndHandleHungTasks`: iterate the
current `taskExecutionTimes`. -/
def detectAndHandleHungTasks (opts : ServiceOptions) (now : Nat)
    (st : ServiceState) : ServiceState × List Event :=
  detectLoop opts now st.taskExecutionTimes st

/-- Iterated detector sweeps at the given instants (the detector runs on
the fixed interval `hangDetectionInterval`), accumulating all emitted
events. -/
def iterSweeps (opts : ServiceOptions) :
    List Nat → ServiceState → ServiceState × List Event
  | [], st => (st, [])
  | tm :: rest, st =>
    let r1 := detectAndHandleHungTasks opts tm st
    let r2 := iterSweeps opts rest r1.1
    (r2.1, r1.2 ++ r2.2)

/-- Number of `task-hung` events for a given task id in a trace. -/
def countHung (taskId : Nat) (evs : List Event) : Nat :=
  (evs.filter (fun ev =>
    match ev with
    | .taskHung tid _ _ _ => tid = taskId
    | _ => false)).length

/-- The mutations of a task's `attempts` counter, abstracted over every
flow in cache-service.js that can run the dispatch loop on one shared
`taskInfo` record (the original `renderToBuffer` call, plus any
`executeTask` invocations started on the same record by
`processRetryQueue` after `recoverInFlightTasks` queued it).  The only
write to `attempts` in the whole service is line 616, `taskInfo.attempts++`,
which executes in the same synchronous block as the `while
(taskInfo.attempts < taskInfo.maxRetries)` guard of line 615 — so every
increment is guarded, and each increment is one worker dispatch.  All
other actions of the recovery and retry-queue paths leave `attempts` and
the dispatch count unchanged (`bookkeeping`).  The state is the pair
`(attempts, dispatches made so far)`. -/
inductive AttemptStep (maxRetries : Nat) : Nat × Nat → Nat × Nat → Prop
  | dispatch (a d : Nat) :
      a < maxRetries → AttemptStep maxRetries (a, d) (a + 1, d + 1)
  | bookkeeping (a d : Nat) : AttemptStep maxRetries (a, d) (a, d)

/-! ### Helper lemmas on the association-list and set operations -/

theorem mem_eraseKey_ne (k : Nat) (m : List (Nat × ExecRecord)) :
    ∀ e ∈ eraseKey k m, e.1 ≠ k := by
  intro e he
  simp only [eraseKey, List.mem_filter, decide_eq_true_eq] at he
  exact he.2

theorem eraseKey_setKey (k : Nat) (v : ExecRecord)
    (m : List (Nat × ExecRecord)) (h : ∀ e ∈ m, e.1 ≠ k) :
    eraseKey k (setKey k v m) = m := by
  induction m with
  | nil => simp [setKey, eraseKey]
  | cons e rest ih =>
    obtain ⟨k', v'⟩ := e
    have hk : k' ≠ k := h (k', v') (List.mem_cons_self _ _)
    have ih' := ih (fun e he => h e (List.mem_cons_of_mem _ he))
    simp only [eraseKey] at ih' ⊢
    rw [setKey, if_neg hk, List.filter_cons_of_pos (by simp [hk]), ih']

/-! ### Structural lemmas on the `executeTask` loop -/

/-- The dispatch loop neither touches the active-task map, the retry
queue, the pool, nor the `renders` and `errors` counters. -/
theorem executeTaskAux_frame (opts : ServiceOptions)
    (run : Nat → Except String Buf) (now : Nat) (fuel : Nat) :
    ∀ (st : ServiceState) (t : TaskInfo),
      (executeTaskAux opts run now fuel st t).state.activeTasks =
        st.activeTasks ∧
      (executeTaskAux opts run now fuel st t).state.retryQueue =
        st.retryQueue ∧
      (executeTaskAux opts run now fuel st t).state.threads = st.threads ∧
      (executeTaskAux opts run now fuel st t).state.stats.renders =
        st.stats.renders ∧
      (executeTaskAux opts run now fuel st t).state.stats.errors =
        st.stats.errors := by
  induction fuel with
  | zero => intro st t; simp [executeTaskAux]
  | succ fuel ih =>
    intro st t
    simp only [executeTaskAux]
    split
    · split
      · split <;> simp
      · split
        · exact ⟨(ih _ _).1, (ih _ _).2.1, (ih _ _).2.2.1, (ih _ _).2.2.2.1,
            (ih _ _).2.2.2.2⟩
        · simp
    · simp

/-- The dispatch loop keeps the task's identity. -/
theorem executeTaskAux_task_id (opts : ServiceOptions)
    (run : Nat → Except String Buf) (now : Nat) (fuel : Nat) :
    ∀ (st : ServiceState) (t : TaskInfo),
      (executeTaskAux opts run now fuel st t).task.id = t.id := by
  induction fuel with
  | zero => intro st t; simp [executeTaskAux]
  | succ fuel ih =>
    intro st t
    simp only [executeTaskAux]
    split
    · split
      · split <;> simp
      · split
        · exact ih _ _
        · simp
    · simp

/-- The dispatch loop keeps the task's retry ceiling. -/
theorem executeTaskAux_task_maxRetries (opts : ServiceOptions)
    (run : Nat → Except String Buf) (now : Nat) (fuel : Nat) :
    ∀ (st : ServiceState) (t : TaskInfo),
      (executeTaskAux opts run now fuel st t).task.maxRetries =
        t.maxRetries := by
  induction fuel with
  | zero => intro st t; simp [executeTaskAux]
  | succ fuel ih =>
    intro st t
    simp only [executeTaskAux]
    split
    · split
      · split <;> simp
      · split
        · exact ih _ _
        · simp
    · simp

/-- The attempts counter only grows across the dispatch loop. -/
theorem executeTaskAux_le_attempts (opts : ServiceOptions)
    (run : Nat → Except String Buf) (now : Nat) (fuel : Nat) :
    ∀ (st : ServiceState) (t : TaskInfo),
      t.attempts ≤ (executeTaskAux opts run now fuel st t).task.attempts := by
  induction fuel with
  | zero => intro st t; simp [executeTaskAux]
  | succ fuel ih =>
    intro st t
    simp only [executeTaskAux]
    split
    · split
      · split <;> simp
      · split
        · dsimp only
          refine Nat.le_trans ?_ (ih _ _)
          dsimp only
          omega
        · simp
    · simp

/-- Every increment of the attempts counter happens under the loop guard
`attempts < maxRetries`, so the counter never passes the ceiling. -/
theorem executeTaskAux_attempts_le (opts : ServiceOptions)
    (run : Nat → Except String Buf) (now : Nat) (fuel : Nat) :
    ∀ (st : ServiceState) (t : TaskInfo),
      (executeTaskAux opts run now fuel st t).task.attempts ≤
        max t.attempts t.maxRetries := by
  induction fuel with
  | zero => intro st t; simp [executeTaskAux]
  | succ fuel ih =>
    intro st t
    simp only [executeTaskAux]
    split
    · split
      · split <;> (simp; omega)
      · split
        · dsimp only
          refine Nat.le_trans (ih _ _) ?_
          dsimp only
          omega
        · simp; omega
    · simp

/-- If the task id is fresh in the execution-time map, the dispatch loop
leaves that map exactly as it found it: every iteration inserts the
record and deletes it again on success or on error. -/
theorem executeTaskAux_execTimes (opts : ServiceOptions)
    (run : Nat → Except String Buf) (now : Nat) (fuel : Nat) :
    ∀ (st : ServiceState) (t : TaskInfo),
      (∀ e ∈ st.taskExecutionTimes, e.1 ≠ t.id) →
      (executeTaskAux opts run now fuel st t).state.taskExecutionTimes =
        st.taskExecutionTimes := by
  induction fuel with
  | zero => intro st t _; simp [executeTaskAux]
  | succ fuel ih =>
    intro st t h
    have hre := eraseKey_setKey t.id
      ⟨now, { t with attempts := t.attempts + 1, lastAttemptAt := some now }⟩
      st.taskExecutionTimes h
    simp only [executeTaskAux]
    split
    · split
      · split <;> (simp; exact hre)
      · split
        · exact (ih _ _ (fun e he => mem_eraseKey_ne _ _ e he)).trans hre
        · simp; exact hre
    · simp

/-- Characterization of a successful `executeTask` outcome: the final
attempt's dispatch returned the buffer, at least one dispatch happened,
and `recovered` was bumped exactly when the final attempt number exceeds
one. -/
theorem executeTaskAux_ok (opts : ServiceOptions)
    (run : Nat → Except String Buf) (now : Nat) (fuel : Nat) :
    ∀ (st : ServiceState) (t : TaskInfo) (buf : Buf),
      (executeTaskAux opts run now fuel st t).result = .ok buf →
      run (executeTaskAux opts run now fuel st t).task.attempts = .ok buf ∧
      t.attempts < (executeTaskAux opts run now fuel st t).task.attempts ∧
      (executeTaskAux opts run now fuel st t).state.stats.recovered =
        st.stats.recovered +
          (if 1 < (executeTaskAux opts run now fuel st t).task.attempts
           then 1 else 0) := by
  induction fuel with
  | zero => intro st t buf h; simp [executeTaskAux] at h
  | succ fuel ih =>
    intro st t buf h
    by_cases hlt : t.attempts < t.maxRetries
    · cases hrun : run (t.attempts + 1) with
      | ok b =>
        simp only [executeTaskAux, if_pos hlt, hrun] at h ⊢
        by_cases hgt : t.attempts + 1 > 1
        · rw [if_pos hgt] at h ⊢
          dsimp only at h ⊢
          obtain rfl : b = buf := by simpa using h
          simp [hrun, hgt]
        · rw [if_neg hgt] at h ⊢
          dsimp only at h ⊢
          obtain rfl : b = buf := by simpa using h
          simp [hrun, hgt]
      | error msg =>
        simp only [executeTaskAux, if_pos hlt, hrun] at h ⊢
        by_cases hlt2 : t.attempts + 1 < t.maxRetries
        · rw [if_pos hlt2] at h ⊢
          dsimp only at h ⊢
          exact ⟨(ih _ _ _ h).1,
            Nat.lt_trans (Nat.lt_succ_self _) (ih _ _ _ h).2.1,
            (ih _ _ _ h).2.2⟩
        · rw [if_neg hlt2] at h
          simp at h
    · simp [executeTaskAux, if_neg hlt] at h

/-- A terminally failing `executeTask` never touches `recovered`. -/
theorem executeTaskAux_error_recovered (opts : ServiceOptions)
    (run : Nat → Except String Buf) (now : Nat) (fuel : Nat) :
    ∀ (st : ServiceState) (t : TaskInfo) (e : String),
      (executeTaskAux opts run now fuel st t).result = .error e →
      (executeTaskAux opts run now fuel st t).state.stats.recovered =
        st.stats.recovered := by
  induction fuel with
  | zero => intro st t e _; simp [executeTaskAux]
  | succ fuel ih =>
    intro st t e h
    by_cases hlt : t.attempts < t.maxRetries
    · cases hrun : run (t.attempts + 1) with
      | ok b =>
        simp only [executeTaskAux, if_pos hlt, hrun] at h
        by_cases hgt : t.attempts + 1 > 1
        · rw [if_pos hgt] at h; simp at h
        · rw [if_neg hgt] at h; simp at h
      | error msg =>
        simp only [executeTaskAux, if_pos hlt, hrun] at h ⊢
        by_cases hlt2 : t.attempts + 1 < t.maxRetries
        · rw [if_pos hlt2] at h ⊢
          dsimp only at h ⊢
          exact ih _ _ _ h
        · rw [if_neg hlt2]
    · simp [executeTaskAux, if_neg hlt]

/-- Every `task-retry` event carries the attempt number of the failed
dispatch (between 1 and `maxRetries - 1`) and exactly the backoff delay
`calculateRetryDelay` for that attempt. -/
theorem executeTaskAux_events (opts : ServiceOptions)
    (run : Nat → Except String Buf) (now : Nat) (fuel : Nat) :
    ∀ (st : ServiceState) (t : TaskInfo) (tid k : Nat) (d : ℚ),
      Event.taskRetry tid k d ∈ (executeTaskAux opts run now fuel st t).trace →
      tid = t.id ∧ 1 ≤ k ∧ k < t.maxRetries ∧
        d = calculateRetryDelay opts k := by
  induction fuel with
  | zero => intro st t tid k d h; simp [executeTaskAux] at h
  | succ fuel ih =>
    intro st t tid k d h
    simp only [executeTaskAux] at h
    split at h
    · rename_i hlt
      split at h
      · rename_i b heq
        split at h
        · simp at h
        · simp at h
      · rename_i msg heq
        split at h
        · rename_i hlt2
          dsimp only at h
          rcases List.mem_cons.mp h with h1 | h2
          · obtain ⟨rfl, rfl, rfl⟩ :
                tid = t.id ∧ k = t.attempts + 1 ∧
                  d = calculateRetryDelay opts (t.attempts + 1) := by
              simpa using h1
            exact ⟨rfl, Nat.succ_le_succ (Nat.zero_le _), hlt2, rfl⟩
          · obtain ⟨h1, h2', h3, h4⟩ := ih _ _ _ _ _ h2
            exact ⟨h1, h2', h3, h4⟩
        · simp at h
    · simp at h

/-- When every dispatch fails with the same message, `executeTask` makes
exactly `maxRetries - attempts` further dispatches, schedules a backoff
retry after each non-final one, and terminally rejects with the wrapped
message. -/
theorem executeTaskAux_allError (opts : ServiceOptions)
    (run : Nat → Except String Buf) (now : Nat) (fuel : Nat) :
    ∀ (st : ServiceState) (t : TaskInfo) (m : String),
      (∀ k, run k = .error m) →
      t.attempts < t.maxRetries →
      fuel = t.maxRetries - t.attempts →
      (executeTaskAux opts run now fuel st t).result =
        .error ("Task failed after " ++ toString t.maxRetries ++
          " attempts: " ++ m) ∧
      (executeTaskAux opts run now fuel st t).task.attempts =
        t.maxRetries ∧
      (executeTaskAux opts run now fuel st t).state.stats.retries =
        st.stats.retries + (t.maxRetries - t.attempts - 1) := by
  induction fuel with
  | zero => intro st t m _ hlt hfuel; omega
  | succ fuel ih =>
    intro st t m hall hlt hfuel
    simp only [executeTaskAux]
    rw [if_pos hlt, hall (t.attempts + 1)]
    dsimp only
    by_cases hlt2 : t.attempts + 1 < t.maxRetries
    · rw [if_pos hlt2]
      dsimp only
      refine ⟨?_, ?_, ?_⟩
      · refine (ih _ _ _ hall hlt2 ?_).1
        dsimp only; omega
      · refine (ih _ _ _ hall hlt2 ?_).2.1
        dsimp only; omega
      · refine Eq.trans ((ih _ _ _ hall hlt2 ?_).2.2) ?_
        · dsimp only; omega
        · dsimp only; omega
    · rw [if_neg hlt2]
      refine ⟨rfl, ?_, ?_⟩
      · dsimp only; omega
      · dsimp only; omega

/-- One successful dispatch ends the loop at once with the buffer, and
bumps `recovered` exactly when this was not the first attempt. -/
theorem executeTaskAux_stepOk (opts : ServiceOptions)
    (run : Nat → Except String Buf) (now : Nat) (fuel : Nat)
    (st : ServiceState) (t : TaskInfo) (b : Buf)
    (hlt : t.attempts < t.maxRetries)
    (hrun : run (t.attempts + 1) = .ok b) :
    (executeTaskAux opts run now (fuel + 1) st t).result = .ok b ∧
    (executeTaskAux opts run now (fuel + 1) st t).task.attempts =
      t.attempts + 1 ∧
    (executeTaskAux opts run now (fuel + 1) st t).state.stats.recovered =
      st.stats.recovered + (if 0 < t.attempts then 1 else 0) := by
  simp only [executeTaskAux]
  rw [if_pos hlt, hrun]
  dsimp only
  by_cases hgt : t.attempts + 1 > 1
  · rw [if_pos hgt]
    refine ⟨rfl, rfl, ?_⟩
    dsimp only
    rw [if_pos (show 0 < t.attempts by omega)]
  · rw [if_neg hgt]
    refine ⟨rfl, rfl, ?_⟩
    dsimp only
    rw [if_neg (show ¬ 0 < t.attempts by omega)]
    omega

/-! ### The same facts at the level of `executeTask` -/

theorem executeTask_frame (opts : ServiceOptions)
    (run : Nat → Except String Buf) (now : Nat) (st : ServiceState)
    (t : TaskInfo) :
    (executeTask opts run now st t).state.activeTasks = st.activeTasks ∧
    (executeTask opts run now st t).state.retryQueue = st.retryQueue ∧
    (executeTask opts run now st t).state.threads = st.threads ∧
    (executeTask opts run now st t).state.stats.renders =
      st.stats.renders ∧
    (executeTask opts run now st t).state.stats.errors =
      st.stats.errors :=
  executeTaskAux_frame opts run now (t.maxRetries - t.attempts) st t

theorem executeTask_task_id (opts : ServiceOptions)
    (run : Nat → Except String Buf) (now : Nat) (st : ServiceState)
    (t : TaskInfo) :
    (executeTask opts run now st t).task.id = t.id :=
  executeTaskAux_task_id opts run now (t.maxRetries - t.attempts) st t

theorem executeTask_attempts_le (opts : ServiceOptions)
    (run : Nat → Except String Buf) (now : Nat) (st : ServiceState)
    (t : TaskInfo) :
    (executeTask opts run now st t).task.attempts ≤
      max t.attempts t.maxRetries :=
  executeTaskAux_attempts_le opts run now (t.maxRetries - t.attempts) st t

theorem executeTask_execTimes (opts : ServiceOptions)
    (run : Nat → Except String Buf) (now : Nat) (st : ServiceState)
    (t : TaskInfo) (h : ∀ e ∈ st.taskExecutionTimes, e.1 ≠ t.id) :
    (executeTask opts run now st t).state.taskExecutionTimes =
      st.taskExecutionTimes :=
  executeTaskAux_execTimes opts run now (t.maxRetries - t.attempts) st t h

theorem executeTask_ok (opts : ServiceOptions)
    (run : Nat → Except String Buf) (now : Nat) (st : ServiceState)
    (t : TaskInfo) (buf : Buf)
    (h : (executeTask opts run now st t).result = .ok buf) :
    run (executeTask opts run now st t).task.attempts = .ok buf ∧
    t.attempts < (executeTask opts run now st t).task.attempts ∧
    (executeTask opts run now st t).state.stats.recovered =
      st.stats.recovered +
        (if 1 < (executeTask opts run now st t).task.attempts
         then 1 else 0) :=
  executeTaskAux_ok opts run now (t.maxRetries - t.attempts) st t buf h

theorem executeTask_error_recovered (opts : ServiceOptions)
    (run : Nat → Except String Buf) (now : Nat) (st : ServiceState)
    (t : TaskInfo) (e : String)
    (h : (executeTask opts run now st t).result = .error e) :
    (executeTask opts run now st t).state.stats.recovered =
      st.stats.recovered :=
  executeTaskAux_error_recovered opts run now (t.maxRetries - t.attempts)
    st t e h

theorem executeTask_events (opts : ServiceOptions)
    (run : Nat → Except String Buf) (now : Nat) (st : ServiceState)
    (t : TaskInfo) (tid k : Nat) (d : ℚ)
    (h : Event.taskRetry tid k d ∈ (executeTask opts run now st t).trace) :
    tid = t.id ∧ 1 ≤ k ∧ k < t.maxRetries ∧
      d = calculateRetryDelay opts k :=
  executeTaskAux_events opts run now (t.maxRetries - t.attempts) st t
    tid k d h

theorem executeTask_allError (opts : ServiceOptions)
    (run : Nat → Except String Buf) (now : Nat) (st : ServiceState)
    (t : TaskInfo) (m : String)
    (hall : ∀ k, run k = .error m)
    (hlt : t.attempts < t.maxRetries) :
    (executeTask opts run now st t).result =
      .error ("Task failed after " ++ toString t.maxRetries ++
        " attempts: " ++ m) ∧
    (executeTask opts run now st t).task.attempts = t.maxRetries ∧
    (executeTask opts run now st t).state.stats.retries =
      st.stats.retries + (t.maxRetries - t.attempts - 1) :=
  executeTaskAux_allError opts run now (t.maxRetries - t.attempts) st t m
    hall hlt rfl

theorem executeTask_stepOk (opts : ServiceOptions)
    (run : Nat → Except String Buf) (now : Nat) (st : ServiceState)
    (t : TaskInfo) (b : Buf)
    (hlt : t.attempts < t.maxRetries)
    (hrun : run (t.attempts + 1) = .ok b) :
    (executeTask opts run now st t).result = .ok b ∧
    (executeTask opts run now st t).task.attempts = t.attempts + 1 ∧
    (executeTask opts run now st t).state.stats.recovered =
      st.stats.recovered + (if 0 < t.attempts then 1 else 0) := by
  obtain ⟨f, hf⟩ : ∃ f, t.maxRetries - t.attempts = f + 1 :=
    ⟨t.maxRetries - t.attempts - 1, by omega⟩
  unfold executeTask
  rw [hf]
  exact executeTaskAux_stepOk opts run now f st t b hlt hrun

/-! ### Counting `task-hung` events -/

theorem countHung_nil (taskId : Nat) : countHung taskId [] = 0 := rfl

theorem countHung_append (taskId : Nat) (a b : List Event) :
    countHung taskId (a ++ b) = countHung taskId a + countHung taskId b := by
  simp [countHung, List.filter_append]

theorem countHung_cons_hung_same (taskId et a th : Nat) (evs : List Event) :
    countHung taskId (Event.taskHung taskId et a th :: evs) =
      countHung taskId evs + 1 := by
  simp [countHung, List.filter_cons]

theorem countHung_cons_hung_ne (taskId tid et a th : Nat) (evs : List Event)
    (hne : tid ≠ taskId) :
    countHung taskId (Event.taskHung tid et a th :: evs) =
      countHung taskId evs := by
  simp [countHung, List.filter_cons, hne]

/-! ### Structural lemmas on the hang-detector sweep -/

/-- All stats fields except `hungTasks`, for frame statements. -/
def statsExceptHung (s : ServiceStats) :
    Nat × Nat × Nat × Nat × Nat × Nat × Option Nat × Nat × List Nat :=
  (s.renders, s.errors, s.retries, s.recovered, s.workerCrashes,
   s.totalTime, s.minTime, s.maxTime, s.timings)

/-- A detector sweep touches neither the task maps, the queue, the pool,
nor any stats counter other than `hungTasks`. -/
theorem detectLoop_frame (opts : ServiceOptions) (now : Nat) :
    ∀ (entries : List (Nat × ExecRecord)) (st : ServiceState),
      (detectLoop opts now entries st).1.activeTasks = st.activeTasks ∧
      (detectLoop opts now entries st).1.retryQueue = st.retryQueue ∧
      (detectLoop opts now entries st).1.taskExecutionTimes =
        st.taskExecutionTimes ∧
      (detectLoop opts now entries st).1.threads = st.threads ∧
      (detectLoop opts now entries st).1.lastWorkerCrash =
        st.lastWorkerCrash ∧
      statsExceptHung (detectLoop opts now entries st).1.stats =
        statsExceptHung st.stats := by
  intro entries
  induction entries with
  | nil => intro st; simp [detectLoop]
  | cons p rest ih =>
    obtain ⟨tid, e⟩ := p
    intro st
    simp only [detectLoop]
    split
    · split
      · exact ih st
      · dsimp only
        exact ⟨(ih _).1, (ih _).2.1, (ih _).2.2.1, (ih _).2.2.2.1,
          (ih _).2.2.2.2.1, (ih _).2.2.2.2.2⟩
    · exact ih st

/-- A detector sweep only appends to the stuck-task set, and bumps
`hungTasks` once per newly flagged task. -/
theorem detectLoop_stuck (opts : ServiceOptions) (now : Nat) :
    ∀ (entries : List (Nat × ExecRecord)) (st : ServiceState),
      ∃ l, (detectLoop opts now entries st).1.stuckTasks =
            st.stuckTasks ++ l ∧
           (detectLoop opts now entries st).1.stats.hungTasks =
            st.stats.hungTasks + l.length := by
  intro entries
  induction entries with
  | nil => intro st; exact ⟨[], by simp [detectLoop], by simp [detectLoop]⟩
  | cons p rest ih =>
    obtain ⟨tid, e⟩ := p
    intro st
    simp only [detectLoop]
    split
    · split
      · exact ih st
      · dsimp only
        obtain ⟨l, hs, hh⟩ := ih
          { st with stuckTasks := st.stuckTasks ++ [tid],
                    stats := { st.stats with
                      hungTasks := st.stats.hungTasks + 1 } }
        refine ⟨tid :: l, ?_, ?_⟩
        · rw [hs]; simp
        · rw [hh]; simp; omega
    · exact ih st

/-- Membership in the stuck set after one sweep: a task is flagged exactly
when it was flagged before or one of its execution records sits strictly
beyond the hang threshold. -/
theorem detectLoop_mem (opts : ServiceOptions) (now taskId : Nat) :
    ∀ (entries : List (Nat × ExecRecord)) (st : ServiceState),
      (taskId ∈ (detectLoop opts now entries st).1.stuckTasks ↔
        taskId ∈ st.stuckTasks ∨
          ∃ rec, (taskId, rec) ∈ entries ∧
            now - rec.startTime > opts.hangThreshold) := by
  intro entries
  induction entries with
  | nil => intro st; simp [detectLoop]
  | cons p rest ih =>
    obtain ⟨tid, e⟩ := p
    intro st
    simp only [detectLoop]
    by_cases hflag : now - e.startTime > opts.hangThreshold
    · rw [if_pos hflag]
      by_cases hmem : tid ∈ st.stuckTasks
      · rw [if_pos hmem, ih st]
        constructor
        · rintro (h | ⟨rec, hr, hc⟩)
          · exact Or.inl h
          · exact Or.inr ⟨rec, List.mem_cons_of_mem _ hr, hc⟩
        · rintro (h | ⟨rec, hr, hc⟩)
          · exact Or.inl h
          · rcases List.mem_cons.mp hr with heq | hr'
            · have h1 : taskId = tid := congrArg Prod.fst heq
              exact Or.inl (by rw [h1]; exact hmem)
            · exact Or.inr ⟨rec, hr', hc⟩
      · rw [if_neg hmem]
        dsimp only
        rw [ih _]
        constructor
        · rintro (h | ⟨rec, hr, hc⟩)
          · rcases List.mem_append.mp h with h' | h'
            · exact Or.inl h'
            · have h1 : taskId = tid := by simpa using h'
              exact Or.inr ⟨e, by simp [h1], hflag⟩
          · exact Or.inr ⟨rec, List.mem_cons_of_mem _ hr, hc⟩
        · rintro (h | ⟨rec, hr, hc⟩)
          · exact Or.inl (List.mem_append.mpr (Or.inl h))
          · rcases List.mem_cons.mp hr with heq | hr'
            · have h1 : taskId = tid := congrArg Prod.fst heq
              exact Or.inl (List.mem_append.mpr (Or.inr (by simp [h1])))
            · exact Or.inr ⟨rec, hr', hc⟩
    · rw [if_neg hflag, ih st]
      constructor
      · rintro (h | ⟨rec, hr, hc⟩)
        · exact Or.inl h
        · exact Or.inr ⟨rec, List.mem_cons_of_mem _ hr, hc⟩
      · rintro (h | ⟨rec, hr, hc⟩)
        · exact Or.inl h
        · rcases List.mem_cons.mp hr with heq | hr'
          · have h2 : rec = e := congrArg Prod.snd heq
            exact absurd (h2 ▸ hc) hflag
          · exact Or.inr ⟨rec, hr', hc⟩

/-- Per-sweep accounting of `task-hung` events for one task: an already
flagged task produces no event, at most one event is produced, and a
produced event leaves the task flagged. -/
theorem detectLoop_count (opts : ServiceOptions) (now taskId : Nat) :
    ∀ (entries : List (Nat × ExecRecord)) (st : ServiceState),
      (taskId ∈ st.stuckTasks →
        countHung taskId (detectLoop opts now entries st).2 = 0) ∧
      countHung taskId (detectLoop opts now entries st).2 ≤ 1 ∧
      (1 ≤ countHung taskId (detectLoop opts now entries st).2 →
        taskId ∈ (detectLoop opts now entries st).1.stuckTasks) := by
  intro entries
  induction entries with
  | nil =>
    intro st
    refine ⟨fun _ => rfl, by simp [detectLoop, countHung], fun h => ?_⟩
    simp [detectLoop, countHung] at h
  | cons p rest ih =>
    obtain ⟨tid, e⟩ := p
    intro st
    simp only [detectLoop]
    by_cases hflag : now - e.startTime > opts.hangThreshold
    · rw [if_pos hflag]
      by_cases hmem : tid ∈ st.stuckTasks
      · rw [if_pos hmem]; exact ih st
      · rw [if_neg hmem]
        dsimp only
        by_cases hid : tid = taskId
        · rw [hid] at hmem ⊢
          set st1 : ServiceState :=
            { st with
              stuckTasks := st.stuckTasks ++ [taskId],
              stats := { st.stats with
                hungTasks := st.stats.hungTasks + 1 } } with hst1
          have hmem1 : taskId ∈ st1.stuckTasks := by
            rw [hst1]
            exact List.mem_append.mpr (Or.inr (List.mem_singleton.mpr rfl))
          have h0 := (ih st1).1 hmem1
          refine ⟨fun habs => absurd habs hmem, ?_, fun _ => ?_⟩
          · rw [countHung_cons_hung_same, h0]
          · obtain ⟨l, hs, _⟩ := detectLoop_stuck opts now rest st1
            rw [hs]
            exact List.mem_append.mpr (Or.inl hmem1)
        · rw [countHung_cons_hung_ne _ _ _ _ _ _ hid]
          exact ⟨fun hmem' => (ih _).1 (List.mem_append.mpr (Or.inl hmem')),
            (ih _).2.1, (ih _).2.2⟩
    · rw [if_neg hflag]; exact ih st

/-! ### Sweep-level corollaries -/

theorem detect_execTimes (opts : ServiceOptions) (now : Nat)
    (st : ServiceState) :
    (detectAndHandleHungTasks opts now st).1.taskExecutionTimes =
      st.taskExecutionTimes :=
  (detectLoop_frame opts now st.taskExecutionTimes st).2.2.1

theorem detect_stuckMono (opts : ServiceOptions) (now taskId : Nat)
    (st : ServiceState) (h : taskId ∈ st.stuckTasks) :
    taskId ∈ (detectAndHandleHungTasks opts now st).1.stuckTasks := by
  obtain ⟨l, hs, _⟩ := detectLoop_stuck opts now st.taskExecutionTimes st
  unfold detectAndHandleHungTasks
  rw [hs]
  exact List.mem_append.mpr (Or.inl h)

theorem iterSweeps_stuckMono (opts : ServiceOptions) (taskId : Nat) :
    ∀ (times : List Nat) (st : ServiceState),
      taskId ∈ st.stuckTasks →
      taskId ∈ (iterSweeps opts times st).1.stuckTasks := by
  intro times
  induction times with
  | nil => intro st h; simpa [iterSweeps] using h
  | cons tm rest ih =>
    intro st h
    simp only [iterSweeps]
    exact ih _ (detect_stuckMono opts tm taskId st h)

/-- Iterated sweeps only append to the stuck set, and the `hungTasks`
counter advances by exactly the number of appended task ids. -/
theorem iterSweeps_stuck (opts : ServiceOptions) :
    ∀ (times : List Nat) (st : ServiceState),
      ∃ l, (iterSweeps opts times st).1.stuckTasks =
            st.stuckTasks ++ l ∧
           (iterSweeps opts times st).1.stats.hungTasks =
            st.stats.hungTasks + l.length := by
  intro times
  induction times with
  | nil => intro st; exact ⟨[], by simp [iterSweeps], by simp [iterSweeps]⟩
  | cons tm rest ih =>
    intro st
    simp only [iterSweeps]
    obtain ⟨l1, h1s, h1h⟩ := detectLoop_stuck opts tm st.taskExecutionTimes st
    obtain ⟨l2, h2s, h2h⟩ := ih (detectAndHandleHungTasks opts tm st).1
    refine ⟨l1 ++ l2, ?_, ?_⟩
    · rw [h2s]
      unfold detectAndHandleHungTasks
      rw [h1s, List.append_assoc]
    · rw [h2h]
      unfold detectAndHandleHungTasks
      rw [h1h]
      simp [Nat.add_assoc]

theorem detect_mem (opts : ServiceOptions) (now taskId : Nat)
    (st : ServiceState) :
    taskId ∈ (detectAndHandleHungTasks opts now st).1.stuckTasks ↔
      taskId ∈ st.stuckTasks ∨
        ∃ rec, (taskId, rec) ∈ st.taskExecutionTimes ∧
          now - rec.startTime > opts.hangThreshold :=
  detectLoop_mem opts now taskId st.taskExecutionTimes st

theorem detect_count (opts : ServiceOptions) (now taskId : Nat)
    (st : ServiceState) :
    (taskId ∈ st.stuckTasks →
      countHung taskId (detectAndHandleHungTasks opts now st).2 = 0) ∧
    countHung taskId (detectAndHandleHungTasks opts now st).2 ≤ 1 ∧
    (1 ≤ countHung taskId (detectAndHandleHungTasks opts now st).2 →
      taskId ∈ (detectAndHandleHungTasks opts now st).1.stuckTasks) :=
  detectLoop_count opts now taskId st.taskExecutionTimes st

/-- Iterated sweeps over a fixed execution record flag the task exactly
when one sweep instant lies strictly beyond the hang threshold. -/
theorem iterSweeps_mem (opts : ServiceOptions) (taskId : Nat)
    (rec : ExecRecord) :
    ∀ (times : List Nat) (st : ServiceState),
      (taskId, rec) ∈ st.taskExecutionTimes →
      (∀ r, (taskId, r) ∈ st.taskExecutionTimes → r = rec) →
      (taskId ∈ (iterSweeps opts times st).1.stuckTasks ↔
        taskId ∈ st.stuckTasks ∨
          ∃ tm ∈ times, tm - rec.startTime > opts.hangThreshold) := by
  intro times
  induction times with
  | nil => intro st _ _; simp [iterSweeps]
  | cons tm rest ih =>
    intro st hrec huniq
    simp only [iterSweeps]
    have hfr := detect_execTimes opts tm st
    rw [ih ((detectAndHandleHungTasks opts tm st).1)
        (by rw [hfr]; exact hrec) (by rw [hfr]; exact huniq)]
    rw [detect_mem opts tm taskId st]
    have hx : (∃ r, (taskId, r) ∈ st.taskExecutionTimes ∧
        tm - r.startTime > opts.hangThreshold) ↔
        tm - rec.startTime > opts.hangThreshold := by
      constructor
      · rintro ⟨r, hr, hc⟩
        rw [← huniq r hr]; exact hc
      · intro hc; exact ⟨rec, hrec, hc⟩
    rw [hx]
    constructor
    · rintro ((h | hc) | ⟨tm', htm', hc⟩)
      · exact Or.inl h
      · exact Or.inr ⟨tm, List.mem_cons_self _ _, hc⟩
      · exact Or.inr ⟨tm', List.mem_cons_of_mem _ htm', hc⟩
    · rintro (h | ⟨tm', htm', hc⟩)
      · exact Or.inl (Or.inl h)
      · rcases List.mem_cons.mp htm' with heq | h'
        · exact Or.inl (Or.inr (heq ▸ hc))
        · exact Or.inr ⟨tm', h', hc⟩

/-- Across any sequence of sweeps, one task produces at most one
`task-hung` event: once flagged, later sweeps skip it. -/
theorem iterSweeps_count (opts : ServiceOptions) (taskId : Nat) :
    ∀ (times : List Nat) (st : ServiceState),
      (taskId ∈ st.stuckTasks →
        countHung taskId (iterSweeps opts times st).2 = 0) ∧
      countHung taskId (iterSweeps opts times st).2 ≤ 1 ∧
      (1 ≤ countHung taskId (iterSweeps opts times st).2 →
        taskId ∈ (iterSweeps opts times st).1.stuckTasks) := by
  intro times
  induction times with
  | nil =>
    intro st
    exact ⟨fun _ => rfl, by simp [iterSweeps, countHung],
      by simp [iterSweeps, countHung]⟩
  | cons tm rest ih =>
    intro st
    simp only [iterSweeps]
    rw [countHung_append]
    have hd := detect_count opts tm taskId st
    have hi := ih (detectAndHandleHungTasks opts tm st).1
    refine ⟨?_, ?_, ?_⟩
    · intro hmem
      rw [hd.1 hmem, hi.1 (detect_stuckMono opts tm taskId st hmem)]
    · rcases Nat.eq_zero_or_pos
        (countHung taskId (detectAndHandleHungTasks opts tm st).2) with
        h0 | h1
      · rw [h0]; simpa using hi.2.1
      · have h20 := hi.1 (hd.2.2 h1)
        rw [h20]
        simpa using hd.2.1
    · intro h
      rcases Nat.eq_zero_or_pos (countHung taskId
          (iterSweeps opts rest (detectAndHandleHungTasks opts tm st).1).2)
        with h2 | h2
      · have h1 : 1 ≤ countHung taskId
            (detectAndHandleHungTasks opts tm st).2 := by omega
        exact iterSweeps_stuckMono opts taskId rest _ (hd.2.2 h1)
      · exact hi.2.2 h2

/-! ### Concrete instances used as inputs below -/

/-- Modelled from the spec: the worker pool (the external Piscina
dependency, configured with `maxQueue` in the service constructor) rejects
a dispatch issued while its internal queue is at `maxQueueSize` with an
explicit queue-full error rather than queueing it further ("explicit
backpressure, not silent blocking").  This function is the `piscina.run`
boundary as `executeTask` sees it for a service whose dispatch queue stays
pinned at capacity. -/
def poolRunAtMaxQueue : Nat → Except String Buf :=
  fun _ => .error "Task queue is full"

/-- A render function that always succeeds with a tiny PDF-like buffer. -/
def sampleRender : DocDefinition → Except String Buf :=
  fun _ => .ok [37, 80, 68, 70]

/-- A payload with `content` missing — structurally invalid input. -/
def missingContentDoc : DocDefinition :=
  { isNonNullObject := true, hasContent := false, serializedLength := 64 }

/-- The `piscina.run` boundary when every dispatch reaches a worker that
runs `generatePdf` on the given payload: the outcome of the attempt is the
worker entry point's outcome on that payload. -/
def workerRun (render : DocDefinition → Except String Buf)
    (d : DocDefinition) : Nat → Except String Buf :=
  fun _ => (generatePdf render d).1

/-- Bridging `calculateRetryDelay`'s JavaScript `Math.pow` on an integer
exponent with the natural-number power of the claim's formula. -/
theorem calculateRetryDelay_pow (opts : ServiceOptions) (k : Nat)
    (hk : 1 ≤ k) :
    calculateRetryDelay opts k =
      opts.retryDelay * opts.retryBackoff ^ (k - 1) := by
  unfold calculateRetryDelay
  congr 1
  rw [show ((k : ℤ) - 1) = ((k - 1 : Nat) : ℤ) by omega, zpow_natCast]

/-! ### The claims -/

/-- C1: the spec demands that the per-job timer of `generatePdfBuffer`, on
expiry with the render still incomplete, aborts the render, discards the
accumulated chunk buffers and rejects the promise with a timeout error.
The code cannot do this: the timeout callback references `pdfDoc`, but
`pdfDoc` is `const`-declared inside the later `try` block (line 102), a
scope the callback does not close over, so once the callback has set
`isCompleted := true` the access throws `ReferenceError: pdfDoc is not
defined`.  The callback never reaches `chunks.length = 0` nor `reject`:
for every pending state, the handler leaves the chunks untouched, never
destroys the document, never settles the promise, and raises an uncaught
`ReferenceError` — while `isCompleted = true` now also blocks the `end`
and `error` handlers from ever settling it. -/
theorem timeout_handler_reference_error (s : GenState)
    (h : s.isCompleted = false) :
    onTimeout s =
      { s with isCompleted := true,
               uncaught := some "ReferenceError: pdfDoc is not defined" } := by
  unfold onTimeout
  rw [if_neg (by simp [h])]
  rfl

/-- Witness for C1: the handler fired over a pending render with one
accumulated chunk sets the completion flag, raises the `ReferenceError`,
and leaves the chunk buffer, the document and the (unsettled) promise
exactly as they were. -/
theorem timeout_handler_reference_error_witness :
    onTimeout
      { isCompleted := false, totalSize := 3, chunks := [[1, 2, 3]],
        settled := none, destroyed := false, uncaught := none } =
      { isCompleted := true, totalSize := 3, chunks := [[1, 2, 3]],
        settled := none, destroyed := false,
        uncaught := some "ReferenceError: pdfDoc is not defined" } :=
  timeout_handler_reference_error
    { isCompleted := false, totalSize := 3, chunks := [[1, 2, 3]],
      settled := none, destroyed := false, uncaught := none } rfl

/-- C2 counterexample: the claim says a submission made while the dispatch
queue is full fails immediately with the queue-full error and is not fed
into the retry/backoff path.  On the code, the queue-full rejection from
`piscina.run` lands in `executeTask`'s catch like any other error: with the
default options the submission is retried twice (`stats.retries = 2`, two
`task-retry` events with backoff delays) and the caller only ever sees the
wrapped terminal error after all three attempts. -/
theorem queue_full_retried_counterexample :
    (renderToBuffer defaultOptions poolRunAtMaxQueue 0 7 5
      (initialState 4)).2.1.stats.retries = 2 ∧
    (renderToBuffer defaultOptions poolRunAtMaxQueue 0 7 5
        (initialState 4)).1 =
      .error "Task failed after 3 attempts: Task queue is full" :=
  ⟨rfl, rfl⟩

/-- When every dispatch of a submission fails with the same message,
`renderToBuffer` retries `maxRetries - 1` times and then surfaces only the
wrapped terminal error, counting one service error. -/
theorem renderToBuffer_allError (opts : ServiceOptions)
    (now taskId duration : Nat) (st : ServiceState)
    (run : Nat → Except String Buf) (m : String)
    (hall : ∀ k, run k = .error m)
    (hN : 1 ≤ opts.maxRetries) :
    (renderToBuffer opts run now taskId duration st).1 =
      .error ("Task failed after " ++ toString opts.maxRetries ++
        " attempts: " ++ m) ∧
    (renderToBuffer opts run now taskId duration st).2.1.stats.retries =
      st.stats.retries + (opts.maxRetries - 1) ∧
    (renderToBuffer opts run now taskId duration st).2.1.stats.errors =
      st.stats.errors + 1 := by
  simp only [renderToBuffer]
  set t0 : TaskInfo :=
    { id := taskId, attempts := 0, maxRetries := opts.maxRetries,
      createdAt := now, lastAttemptAt := none, errors := [] } with ht0
  set st1 : ServiceState :=
    { st with activeTasks := st.activeTasks ++ [t0] } with hst1
  have hE := executeTask_allError opts run now st1 t0 m hall hN
  rw [hE.1]
  dsimp only
  refine ⟨rfl, ?_, ?_⟩
  · rw [hE.2.2]
    dsimp only [ht0, hst1]
    omega
  · rw [(executeTask_frame opts run now st1 t0).2.2.2.2]

/-- C2 (amended): a submission whose every dispatch is rejected by the
pool with the queue-full error is not failed immediately; `executeTask`
feeds the rejection into the generic retry/backoff path, retrying
`maxRetries - 1` times, and the caller receives only the wrapped terminal
error (and one errors-counter increment) after `maxRetries` attempts. -/
theorem queue_full_enters_retry_path (opts : ServiceOptions)
    (now taskId duration : Nat) (st : ServiceState)
    (run : Nat → Except String Buf) (m : String)
    (hall : ∀ k, run k = .error m)
    (hN : 1 ≤ opts.maxRetries) :
    (renderToBuffer opts run now taskId duration st).1 =
      .error ("Task failed after " ++ toString opts.maxRetries ++
        " attempts: " ++ m) ∧
    (renderToBuffer opts run now taskId duration st).2.1.stats.retries =
      st.stats.retries + (opts.maxRetries - 1) ∧
    (renderToBuffer opts run now taskId duration st).2.1.stats.errors =
      st.stats.errors + 1 :=
  renderToBuffer_allError opts now taskId duration st run m hall hN

/-- Witness for C2's amended statement at the default options and a pool
pinned at capacity. -/
theorem queue_full_enters_retry_path_witness :
    (renderToBuffer defaultOptions poolRunAtMaxQueue 0 7 5
        (initialState 4)).1 =
      .error ("Task failed after " ++ toString defaultOptions.maxRetries ++
        " attempts: " ++ "Task queue is full") ∧
    (renderToBuffer defaultOptions poolRunAtMaxQueue 0 7 5
        (initialState 4)).2.1.stats.retries =
      (initialState 4).stats.retries + (defaultOptions.maxRetries - 1) ∧
    (renderToBuffer defaultOptions poolRunAtMaxQueue 0 7 5
        (initialState 4)).2.1.stats.errors =
      (initialState 4).stats.errors + 1 :=
  queue_full_enters_retry_path defaultOptions 0 7 5 (initialState 4)
    poolRunAtMaxQueue "Task queue is full" (fun _ => rfl) (by decide)

/-- C3 counterexample: the claim says an invalid payload is rejected
before any rendering work and never retried.  The first half holds (the
worker throws in `validateDocDefinition` before `generatePdfBuffer` runs),
but the coordinator retries the validation failure like any other error:
with the default options a missing-`content` payload is dispatched three
times and retried twice (`stats.retries = 2`) before the terminal
rejection. -/
theorem invalid_payload_retried_counterexample :
    (generatePdf sampleRender missingContentDoc).2 = false ∧
    (renderToBuffer defaultOptions (workerRun sampleRender missingContentDoc)
      0 7 5 (initialState 4)).2.1.stats.retries = 2 ∧
    (renderToBuffer defaultOptions (workerRun sampleRender missingContentDoc)
        0 7 5 (initialState 4)).1 =
      .error "Task failed after 3 attempts: PDF Worker Error: Missing content" :=
  ⟨rfl, rfl, rfl⟩

/-- C3 (amended): a structurally invalid or oversized payload is rejected
by the worker before any rendering work on every dispatch attempt
(`generatePdf` never reaches the render step), but the coordinator's retry
logic does not distinguish input errors: the job is dispatched
`maxRetries` times, retried `maxRetries - 1` times with backoff, and only
then terminally rejected with the wrapped validation message. -/
theorem invalid_payload_rejected_pre_render
    (render : DocDefinition → Except String Buf) (d : DocDefinition)
    (msg : String) (hval : validateDocDefinition d = .error msg)
    (opts : ServiceOptions) (now taskId duration : Nat)
    (st : ServiceState) (hN : 1 ≤ opts.maxRetries) :
    generatePdf render d = (.error ("PDF Worker Error: " ++ msg), false) ∧
    (renderToBuffer opts (workerRun render d) now taskId duration st).1 =
      .error ("Task failed after " ++ toString opts.maxRetries ++
        " attempts: " ++ ("PDF Worker Error: " ++ msg)) ∧
    (renderToBuffer opts (workerRun render d) now taskId duration
        st).2.1.stats.retries =
      st.stats.retries + (opts.maxRetries - 1) := by
  have hgen : generatePdf render d =
      (.error ("PDF Worker Error: " ++ msg), false) := by
    unfold generatePdf
    rw [hval]
  have hall : ∀ k, workerRun render d k =
      .error ("PDF Worker Error: " ++ msg) := by
    intro k
    unfold workerRun
    rw [hgen]
  refine ⟨hgen, ?_, ?_⟩
  · exact (renderToBuffer_allError opts now taskId duration st
      (workerRun render d) _ hall hN).1
  · exact (renderToBuffer_allError opts now taskId duration st
      (workerRun render d) _ hall hN).2.1

/-- Witness for C3's amended statement on the missing-`content` payload. -/
theorem invalid_payload_rejected_pre_render_witness :
    generatePdf sampleRender missingContentDoc =
      (.error ("PDF Worker Error: " ++ "Missing content"), false) ∧
    (renderToBuffer defaultOptions (workerRun sampleRender missingContentDoc)
        0 7 5 (initialState 4)).1 =
      .error ("Task failed after " ++ toString defaultOptions.maxRetries ++
        " attempts: " ++ ("PDF Worker Error: " ++ "Missing content")) ∧
    (renderToBuffer defaultOptions (workerRun sampleRender missingContentDoc)
        0 7 5 (initialState 4)).2.1.stats.retries =
      (initialState 4).stats.retries + (defaultOptions.maxRetries - 1) :=
  invalid_payload_rejected_pre_render sampleRender missingContentDoc
    "Missing content" rfl defaultOptions 0 7 5 (initialState 4) (by decide)

/-- C4: every `task-retry` event emitted by `executeTask` for a failed
attempt `k` carries exactly the backoff delay
`retryDelay * retryBackoff ^ (k - 1)` — pure exponential backoff with no
jitter — and `k ≥ 1`; the delay is the wait scheduled before attempt
`k + 1`. -/
theorem retry_delay_exponential (opts : ServiceOptions)
    (run : Nat → Except String Buf) (now : Nat) (st : ServiceState)
    (t : TaskInfo) (tid k : Nat) (d : ℚ)
    (h : Event.taskRetry tid k d ∈ (executeTask opts run now st t).trace) :
    1 ≤ k ∧ d = opts.retryDelay * opts.retryBackoff ^ (k - 1) := by
  obtain ⟨_, hk, _, hd⟩ := executeTask_events opts run now st t tid k d h
  exact ⟨hk, hd.trans (calculateRetryDelay_pow opts k hk)⟩

/-- Witness for C4: with the default options (base 1000 ms, backoff 1.5)
the first retry event carries the formula's delay, and the three delays of
the spec's example evaluate to 1000, 1500 and 2250 ms. -/
theorem retry_delay_exponential_witness :
    (1 ≤ 1 ∧ calculateRetryDelay defaultOptions 1 =
      defaultOptions.retryDelay * defaultOptions.retryBackoff ^ (1 - 1)) ∧
    calculateRetryDelay defaultOptions 1 = 1000 ∧
    calculateRetryDelay defaultOptions 2 = 1500 ∧
    calculateRetryDelay defaultOptions 3 = 2250 :=
  ⟨retry_delay_exponential defaultOptions poolRunAtMaxQueue 0
      (initialState 4)
      { id := 7, attempts := 0, maxRetries := 3, createdAt := 0,
        lastAttemptAt := none, errors := [] }
      7 1 (calculateRetryDelay defaultOptions 1) (List.Mem.head _),
   by norm_num [calculateRetryDelay, defaultOptions],
   by norm_num [calculateRetryDelay, defaultOptions],
   by norm_num [calculateRetryDelay, defaultOptions]⟩

/-- C5: the attempts counter of a task never exceeds `maxRetries`.  First,
over every interleaving of dispatch loops that may share one `taskInfo`
record (the original `renderToBuffer` call plus any `processRetryQueue`
re-executions after crash recovery): the only write to `attempts` in the
service is the guarded `taskInfo.attempts++` of the loop head, modelled by
`AttemptStep.dispatch`, so from a fresh task every reachable
(attempts, dispatches) pair satisfies `attempts ≤ maxRetries` and
`dispatches = attempts` — hence at most `maxRetries` dispatch attempts in
total.  Second, the sequential `executeTask` on a fresh task obeys the
same bound. -/
theorem attempts_never_exceed_max :
    (∀ (N : Nat) (s : Nat × Nat),
      Relation.ReflTransGen (AttemptStep N) (0, 0) s →
      s.1 ≤ N ∧ s.2 = s.1) ∧
    (∀ (opts : ServiceOptions) (run : Nat → Except String Buf)
        (now : Nat) (st : ServiceState) (t : TaskInfo),
      t.attempts = 0 →
      (executeTask opts run now st t).task.attempts ≤ t.maxRetries) := by
  constructor
  · intro N s h
    induction h with
    | refl => exact ⟨Nat.zero_le _, rfl⟩
    | tail hsteps hstep ih =>
      obtain ⟨ih1, ih2⟩ := ih
      cases hstep with
      | dispatch a d hlt =>
        dsimp only at ih1 ih2 ⊢
        omega
      | bookkeeping a d => exact ⟨ih1, ih2⟩
  · intro opts run now st t h0
    have hle := executeTask_attempts_le opts run now st t
    rw [h0] at hle
    simpa using hle

/-- Witness for C5: the three-dispatch run of a `maxRetries = 3` task
reaches attempts 3 = dispatches 3 and no step beyond, and a concrete
`executeTask` run stays within the bound. -/
theorem attempts_never_exceed_max_witness :
    (((3 : Nat), (3 : Nat)).1 ≤ 3 ∧ ((3 : Nat), (3 : Nat)).2 =
      ((3 : Nat), (3 : Nat)).1) ∧
    (executeTask defaultOptions poolRunAtMaxQueue 0 (initialState 4)
      { id := 7, attempts := 0, maxRetries := 3, createdAt := 0,
        lastAttemptAt := none, errors := [] }).task.attempts ≤ 3 :=
  ⟨attempts_never_exceed_max.1 3 (3, 3)
      (Relation.ReflTransGen.head (AttemptStep.dispatch 0 0 (by omega))
        (Relation.ReflTransGen.head (AttemptStep.dispatch 1 1 (by omega))
          (Relation.ReflTransGen.head (AttemptStep.dispatch 2 2 (by omega))
            Relation.ReflTransGen.refl))),
   attempts_never_exceed_max.2 defaultOptions poolRunAtMaxQueue 0
     (initialState 4)
     { id := 7, attempts := 0, maxRetries := 3, createdAt := 0,
       lastAttemptAt := none, errors := [] } rfl⟩

/-- C6: whenever the periodic worker check observes a live worker count
strictly below `minThreads`, it increments `workerCrashes` by exactly one
and, synchronously within that check (hence within one recovery-loop
interval), adds every active task with `attempts < maxRetries` to the
retry queue. -/
theorem worker_crash_recovery (opts : ServiceOptions)
    (currentWorkers now : Nat) (st : ServiceState)
    (h : currentWorkers < opts.minThreads) :
    (checkWorkers opts currentWorkers now st).1.stats.workerCrashes =
      st.stats.workerCrashes + 1 ∧
    ∀ t ∈ st.activeTasks, t.attempts < t.maxRetries →
      t ∈ (checkWorkers opts currentWorkers now st).1.retryQueue := by
  unfold checkWorkers
  rw [if_pos h]
  dsimp only
  unfold recoverInFlightTasks
  dsimp only
  constructor
  · split <;> rfl
  · intro t ht hlt
    split <;>
      exact List.mem_append.mpr
        (Or.inr (List.mem_filter.mpr ⟨ht, by simpa using hlt⟩))

/-- Witness for C6: one live worker with `minThreads = 2`, one in-flight
task with retry budget: the crash counter advances by one and the task
lands in the retry queue. -/
theorem worker_crash_recovery_witness :
    (checkWorkers defaultOptions 1 0
        { initialState 4 with activeTasks :=
          [{ id := 7, attempts := 1, maxRetries := 3, createdAt := 0,
             lastAttemptAt := some 0, errors := [] }] }).1.stats.workerCrashes =
      ({ initialState 4 with activeTasks :=
          [{ id := 7, attempts := 1, maxRetries := 3, createdAt := 0,
             lastAttemptAt := some 0, errors := [] }] } :
        ServiceState).stats.workerCrashes + 1 ∧
    ∀ t ∈ ({ initialState 4 with activeTasks :=
          [{ id := 7, attempts := 1, maxRetries := 3, createdAt := 0,
             lastAttemptAt := some 0, errors := [] }] } :
        ServiceState).activeTasks,
      t.attempts < t.maxRetries →
      t ∈ (checkWorkers defaultOptions 1 0
        { initialState 4 with activeTasks :=
          [{ id := 7, attempts := 1, maxRetries := 3, createdAt := 0,
             lastAttemptAt := some 0, errors := [] }] }).1.retryQueue :=
  worker_crash_recovery defaultOptions 1 0
    { initialState 4 with activeTasks :=
      [{ id := 7, attempts := 1, maxRetries := 3, createdAt := 0,
         lastAttemptAt := some 0, errors := [] }] } (by decide)

/-- C7: over any sequence of detector sweeps during one execution (the
record stays in the map — sweeps never change it), a not-yet-flagged task
is flagged if and only if some sweep observes an elapsed execution time
strictly exceeding `hangThreshold` (in particular, a sweep at elapsed
`hangThreshold - 1` or even `hangThreshold` flags nothing); across all
those sweeps the `task-hung` event fires at most once, and the
`hungTasks` counter advances by exactly the number of newly flagged
tasks — hence at most once for this one. -/
theorem hang_flagging_strict_and_idempotent (opts : ServiceOptions)
    (times : List Nat) (st : ServiceState) (taskId : Nat)
    (rec : ExecRecord)
    (hrec : (taskId, rec) ∈ st.taskExecutionTimes)
    (huniq : ∀ r, (taskId, r) ∈ st.taskExecutionTimes → r = rec)
    (hfresh : taskId ∉ st.stuckTasks) :
    (taskId ∈ (iterSweeps opts times st).1.stuckTasks ↔
      ∃ tm ∈ times, tm - rec.startTime > opts.hangThreshold) ∧
    countHung taskId (iterSweeps opts times st).2 ≤ 1 ∧
    (iterSweeps opts times st).1.stats.hungTasks =
      st.stats.hungTasks +
        ((iterSweeps opts times st).1.stuckTasks.length -
          st.stuckTasks.length) := by
  refine ⟨?_, (iterSweeps_count opts taskId times st).2.1, ?_⟩
  · rw [iterSweeps_mem opts taskId rec times st hrec huniq]
    simp [hfresh]
  · obtain ⟨l, hs, hh⟩ := iterSweeps_stuck opts times st
    rw [hs, hh]
    simp only [List.length_append]
    omega

/-- Witness for C7: default threshold 45000 ms, record started at 0,
sweeps at 44999, 45001 and 45002 ms: flagged (45001 exceeds the
threshold, 44999 does not), with exactly one `task-hung` event and one
counter increment across the three sweeps. -/
theorem hang_flagging_strict_and_idempotent_witness :
    (7 ∈ (iterSweeps defaultOptions [44999, 45001, 45002]
        { initialState 4 with taskExecutionTimes :=
          [(7, { startTime := 0, taskInfo :=
            { id := 7, attempts := 1, maxRetries := 3, createdAt := 0,
              lastAttemptAt := some 0, errors := [] } })] }).1.stuckTasks ↔
      ∃ tm ∈ [44999, 45001, 45002],
        tm - (0 : Nat) > defaultOptions.hangThreshold) ∧
    countHung 7 (iterSweeps defaultOptions [44999, 45001, 45002]
      { initialState 4 with taskExecutionTimes :=
        [(7, { startTime := 0, taskInfo :=
          { id := 7, attempts := 1, maxRetries := 3, createdAt := 0,
            lastAttemptAt := some 0, errors := [] } })] }).2 ≤ 1 ∧
    (iterSweeps defaultOptions [44999, 45001, 45002]
      { initialState 4 with taskExecutionTimes :=
        [(7, { startTime := 0, taskInfo :=
          { id := 7, attempts := 1, maxRetries := 3, createdAt := 0,
            lastAttemptAt := some 0, errors := [] } })] }).1.stats.hungTasks =
      ({ initialState 4 with taskExecutionTimes :=
        [(7, { startTime := 0, taskInfo :=
          { id := 7, attempts := 1, maxRetries := 3, createdAt := 0,
            lastAttemptAt := some 0, errors := [] } })] } :
        ServiceState).stats.hungTasks +
        ((iterSweeps defaultOptions [44999, 45001, 45002]
          { initialState 4 with taskExecutionTimes :=
            [(7, { startTime := 0, taskInfo :=
              { id := 7, attempts := 1, maxRetries := 3, createdAt := 0,
                lastAttemptAt := some 0, errors := [] } })] }).1.stuckTasks.length -
          ({ initialState 4 with taskExecutionTimes :=
            [(7, { startTime := 0, taskInfo :=
              { id := 7, attempts := 1, maxRetries := 3, createdAt := 0,
                lastAttemptAt := some 0, errors := [] } })] } :
            ServiceState).stuckTasks.length) :=
  hang_flagging_strict_and_idempotent defaultOptions [44999, 45001, 45002]
    { initialState 4 with taskExecutionTimes :=
      [(7, { startTime := 0, taskInfo :=
        { id := 7, attempts := 1, maxRetries := 3, createdAt := 0,
          lastAttemptAt := some 0, errors := [] } })] }
    7 { startTime := 0, taskInfo :=
        { id := 7, attempts := 1, maxRetries := 3, createdAt := 0,
          lastAttemptAt := some 0, errors := [] } }
    (List.mem_singleton.mpr rfl)
    (fun r hr => by simpa using (List.mem_singleton.mp hr))
    (by simp [initialState, initialStats])

/-- C8: a successful submission increments `renders` exactly once (in
`updateStats`, not once per attempt); a submission that succeeds on its
first dispatch leaves `recovered` unchanged; a submission whose first
dispatch failed but which ultimately succeeds (so on attempt ≥ 2)
increments `recovered` exactly once. -/
theorem recovered_and_renders_accounting (opts : ServiceOptions)
    (run : Nat → Except String Buf) (now taskId duration : Nat)
    (st : ServiceState) (hN : 1 ≤ opts.maxRetries) :
    (∀ buf, (renderToBuffer opts run now taskId duration st).1 = .ok buf →
      (renderToBuffer opts run now taskId duration st).2.1.stats.renders =
        st.stats.renders + 1) ∧
    (∀ b, run 1 = .ok b →
      (renderToBuffer opts run now taskId duration st).1 = .ok b ∧
      (renderToBuffer opts run now taskId duration st).2.1.stats.recovered =
        st.stats.recovered) ∧
    (∀ m buf, run 1 = .error m →
      (renderToBuffer opts run now taskId duration st).1 = .ok buf →
      (renderToBuffer opts run now taskId duration st).2.1.stats.recovered =
        st.stats.recovered + 1) := by
  simp only [renderToBuffer]
  set t0 : TaskInfo :=
    { id := taskId, attempts := 0, maxRetries := opts.maxRetries,
      createdAt := now, lastAttemptAt := none, errors := [] } with ht0
  set st1 : ServiceState :=
    { st with activeTasks := st.activeTasks ++ [t0] } with hst1
  cases hres : (executeTask opts run now st1 t0).result with
  | ok buf0 =>
    dsimp only
    refine ⟨?_, ?_, ?_⟩
    · intro buf _
      simp only [updateStats]
      rw [(executeTask_frame opts run now st1 t0).2.2.2.1, hst1]
    · intro b hb1
      have hstep := executeTask_stepOk opts run now st1 t0 b hN hb1
      have hr := hstep.1
      rw [hres] at hr
      obtain rfl : buf0 = b := by simpa using hr
      refine ⟨rfl, ?_⟩
      simp only [updateStats]
      rw [hstep.2.2, ht0, hst1]
      simp
    · intro m buf hm _
      have hokk := executeTask_ok opts run now st1 t0 buf0 hres
      have h0 : t0.attempts = 0 := by rw [ht0]
      have hgt : 1 < (executeTask opts run now st1 t0).task.attempts := by
        rcases Nat.lt_or_ge 1
          ((executeTask opts run now st1 t0).task.attempts) with hx | hx
        · exact hx
        · exfalso
          have h1 : (executeTask opts run now st1 t0).task.attempts = 1 := by
            have := hokk.2.1
            omega
          have hr1 := hokk.1
          rw [h1, hm] at hr1
          exact absurd hr1 (by simp)
      simp only [updateStats]
      rw [hokk.2.2, if_pos hgt, hst1]
  | error e0 =>
    dsimp only
    refine ⟨?_, ?_, ?_⟩
    · intro buf hb
      exact absurd hb (by simp)
    · intro b hb1
      exfalso
      have hstep := executeTask_stepOk opts run now st1 t0 b hN hb1
      rw [hres] at hstep
      exact absurd hstep.1 (by simp)
    · intro m buf hm hok
      exact absurd hok (by simp)

/-- A dispatch boundary that fails once and then succeeds: used to witness
the recovered-task accounting. -/
def recoverRun : Nat → Except String Buf :=
  fun k => if k ≤ 1 then .error "transient worker failure" else .ok [9]

/-- Witness for C8: a task that fails its first dispatch and succeeds on
the second is counted as one render and one recovery. -/
theorem recovered_and_renders_accounting_witness :
    (∀ buf, (renderToBuffer defaultOptions recoverRun 0 7 5
        (initialState 4)).1 = .ok buf →
      (renderToBuffer defaultOptions recoverRun 0 7 5
        (initialState 4)).2.1.stats.renders =
        (initialState 4).stats.renders + 1) ∧
    (∀ b, recoverRun 1 = .ok b →
      (renderToBuffer defaultOptions recoverRun 0 7 5
        (initialState 4)).1 = .ok b ∧
      (renderToBuffer defaultOptions recoverRun 0 7 5
        (initialState 4)).2.1.stats.recovered =
        (initialState 4).stats.recovered) ∧
    (∀ m buf, recoverRun 1 = .error m →
      (renderToBuffer defaultOptions recoverRun 0 7 5
        (initialState 4)).1 = .ok buf →
      (renderToBuffer defaultOptions recoverRun 0 7 5
        (initialState 4)).2.1.stats.recovered =
        (initialState 4).stats.recovered + 1) :=
  recovered_and_renders_accounting defaultOptions recoverRun 0 7 5
    (initialState 4) (by decide)

/-- C9: one hang-detector sweep is a pure observer: it leaves the
active-task map, the retry queue, the execution-time map, the worker pool
(thread count), the crash record and every stats counter other than
`hungTasks` untouched — it terminates nothing; its only writes are
appending newly flagged ids to the stuck-task set and advancing
`hungTasks` by exactly that number (besides emitting events). -/
theorem hang_detector_frame (opts : ServiceOptions) (now : Nat)
    (st : ServiceState) :
    (detectAndHandleHungTasks opts now st).1.activeTasks = st.activeTasks ∧
    (detectAndHandleHungTasks opts now st).1.retryQueue = st.retryQueue ∧
    (detectAndHandleHungTasks opts now st).1.taskExecutionTimes =
      st.taskExecutionTimes ∧
    (detectAndHandleHungTasks opts now st).1.threads = st.threads ∧
    (detectAndHandleHungTasks opts now st).1.lastWorkerCrash =
      st.lastWorkerCrash ∧
    statsExceptHung (detectAndHandleHungTasks opts now st).1.stats =
      statsExceptHung st.stats ∧
    ∃ l, (detectAndHandleHungTasks opts now st).1.stuckTasks =
          st.stuckTasks ++ l ∧
         (detectAndHandleHungTasks opts now st).1.stats.hungTasks =
          st.stats.hungTasks + l.length :=
  ⟨(detectLoop_frame opts now st.taskExecutionTimes st).1,
   (detectLoop_frame opts now st.taskExecutionTimes st).2.1,
   (detectLoop_frame opts now st.taskExecutionTimes st).2.2.1,
   (detectLoop_frame opts now st.taskExecutionTimes st).2.2.2.1,
   (detectLoop_frame opts now st.taskExecutionTimes st).2.2.2.2.1,
   (detectLoop_frame opts now st.taskExecutionTimes st).2.2.2.2.2,
   detectLoop_stuck opts now st.taskExecutionTimes st⟩

/-- C10: once a `renderToBuffer` call settles — with a buffer or with the
terminal error — its (fresh) task id is gone from the active-task map and
from the execution-time map. -/
theorem active_task_cleanup (opts : ServiceOptions)
    (run : Nat → Except String Buf) (now taskId duration : Nat)
    (st : ServiceState)
    (hexec : ∀ e ∈ st.taskExecutionTimes, e.1 ≠ taskId) :
    (∀ t ∈ (renderToBuffer opts run now taskId duration
        st).2.1.activeTasks, t.id ≠ taskId) ∧
    (∀ e ∈ (renderToBuffer opts run now taskId duration
        st).2.1.taskExecutionTimes, e.1 ≠ taskId) := by
  simp only [renderToBuffer]
  set t0 : TaskInfo :=
    { id := taskId, attempts := 0, maxRetries := opts.maxRetries,
      createdAt := now, lastAttemptAt := none, errors := [] } with ht0
  set st1 : ServiceState :=
    { st with activeTasks := st.activeTasks ++ [t0] } with hst1
  have hexec1 : ∀ e ∈ st1.taskExecutionTimes, e.1 ≠ t0.id := fun e he =>
    hexec e he
  have hT := executeTask_execTimes opts run now st1 t0 hexec1
  cases hres : (executeTask opts run now st1 t0).result with
  | ok buf0 =>
    dsimp only
    constructor
    · intro t ht
      have h := List.mem_filter.mp ht
      simpa using h.2
    · simp only [updateStats]
      rw [hT]
      exact hexec
  | error e0 =>
    dsimp only
    constructor
    · intro t ht
      have h := List.mem_filter.mp ht
      simpa using h.2
    · rw [hT]
      exact hexec

/-- Witness for C10: a concrete submission over the fresh service state
leaves no trace of its task id in either map, on the failure path. -/
theorem active_task_cleanup_witness :
    (∀ t ∈ (renderToBuffer defaultOptions poolRunAtMaxQueue 0 7 5
        (initialState 4)).2.1.activeTasks, t.id ≠ 7) ∧
    (∀ e ∈ (renderToBuffer defaultOptions poolRunAtMaxQueue 0 7 5
        (initialState 4)).2.1.taskExecutionTimes, e.1 ≠ 7) :=
  active_task_cleanup defaultOptions poolRunAtMaxQueue 0 7 5
    (initialState 4) (by simp [initialState])

end PdfGen
